import Mathlib

/-!
Verification of the Remindly persistence and synchronization core.

The definitions below are a shallow embedding of the storage module
(`src/services/storage.ts`: `GitHubStorage.loadData`, `GitHubStorage.saveData`,
`LocalStorageService`) and of the application/server handlers
(`loadInitialData`, `persistData`, `handleAddAppointment`, `handleDelete`,
`handleTrigger`, and the Express routes `GET/POST/DELETE /api/appointments`
and `POST /api/trigger-reminder/:id`).

JavaScript strings are modelled as Lean `String`s; where the byte/code-unit
level matters (the `btoa`/`atob` transport of the remote store) a string is
viewed as its list of code points (`strCodes`).  External effects (the remote
HTTP file API, the webhook) are modelled by passing their observable outcome
as an explicit argument.
-/

/-- Lifecycle status of an appointment: the TS union `'pending' | 'sent'`. -/
inductive Status
  | pending
  | sent
deriving DecidableEq

/-- The `Appointment` record interface. -/
structure Appointment where
  id : Nat
  client_name : String
  phone_number : String
  appointment_date : String
  appointment_time : String
  status : Status
deriving DecidableEq

/-- The `AppSettings` interface, with its default-initialised field order. -/
structure AppSettings where
  n8n_webhook_url : String
  use_github : Bool
  github_token : String
  github_repo : String
  github_path : String
  github_branch : String
deriving DecidableEq

/-- The code points of a JS string value. -/
def strCodes (s : String) : List Nat :=
  s.data.map Char.toNat

/-- Lower-case hexadecimal digit, as produced by `JSON.stringify` for
control-character escapes. -/
def hexDigit (n : Nat) : Nat :=
  if n < 10 then 48 + n else 87 + n

/-- Escaping of one character of a JSON string literal, as performed by
`JSON.stringify`: `"` and `\` get a backslash escape, the named control
characters get their short escapes, other control characters get `\u00xx`,
and every other character (ASCII or not) is emitted literally. -/
def jsonEscapeChar (c : Nat) : List Nat :=
  if c = 34 then [92, 34]
  else if c = 92 then [92, 92]
  else if c = 8 then [92, 98]
  else if c = 9 then [92, 116]
  else if c = 10 then [92, 110]
  else if c = 12 then [92, 102]
  else if c = 13 then [92, 114]
  else if c < 32 then [92, 117, 48, 48, hexDigit (c / 16), hexDigit (c % 16)]
  else [c]

/-- A JSON string literal (code points), i.e. `JSON.stringify` of a string. -/
def jsonQuote (s : String) : List Nat :=
  34 :: (strCodes s).flatMap jsonEscapeChar ++ [34]

/-- Decimal digits of a natural number, as code points. -/
def natCodes (n : Nat) : List Nat :=
  (Nat.toDigits 10 n).map Char.toNat

/-- The JSON value of a `status` field. -/
def statusString : Status → String
  | .pending => "pending"
  | .sent => "sent"

/-- One `    "key": value` line of a pretty-printed (indent 2) object at
nesting depth 2, as produced by `JSON.stringify(data, null, 2)`. -/
def fieldLine (key : String) (val : List Nat) : List Nat :=
  strCodes "    " ++ jsonQuote key ++ strCodes ": " ++ val

/-- `JSON.stringify(a, null, 2)` of one appointment object at array depth 1.
The key order is the property-insertion order of the object built by
`handleAddAppointment`: the four spread form fields, then `id`, then
`status`. -/
def stringifyAppt (a : Appointment) : List Nat :=
  strCodes "\x7b\n"
    ++ fieldLine "client_name" (jsonQuote a.client_name) ++ strCodes ",\n"
    ++ fieldLine "phone_number" (jsonQuote a.phone_number) ++ strCodes ",\n"
    ++ fieldLine "appointment_date" (jsonQuote a.appointment_date) ++ strCodes ",\n"
    ++ fieldLine "appointment_time" (jsonQuote a.appointment_time) ++ strCodes ",\n"
    ++ fieldLine "id" (natCodes a.id) ++ strCodes ",\n"
    ++ fieldLine "status" (jsonQuote (statusString a.status)) ++ strCodes "\n  \x7d"

/-- `JSON.stringify(data, null, 2)` for the appointment array, the exact
payload `GitHubStorage.saveData` feeds to `btoa`. -/
def stringifyAppointments : List Appointment → List Nat
  | [] => strCodes "[]"
  | a :: rest =>
      strCodes "[\n  " ++ stringifyAppt a
        ++ rest.flatMap (fun b => strCodes ",\n  " ++ stringifyAppt b)
        ++ strCodes "\n]"

/-- The code point of the base64 alphabet character with index `n`. -/
def base64Code (n : Nat) : Nat :=
  if n < 26 then 65 + n
  else if n < 52 then 97 + (n - 26)
  else if n < 62 then 48 + (n - 52)
  else if n = 62 then 43
  else 47

/-- Base64 of a byte sequence (with `=` padding, code 61). -/
def btoaBytes : List Nat → List Nat
  | [] => []
  | [b1] => [base64Code (b1 / 4), base64Code (b1 % 4 * 16), 61, 61]
  | [b1, b2] => [base64Code (b1 / 4), base64Code (b1 % 4 * 16 + b2 / 16),
      base64Code (b2 % 16 * 4), 61]
  | b1 :: b2 :: b3 :: rest =>
      base64Code (b1 / 4) :: base64Code (b1 % 4 * 16 + b2 / 16)
        :: base64Code (b2 % 16 * 4 + b3 / 64) :: base64Code (b3 % 64)
        :: btoaBytes rest

/-- The Web API `btoa`: succeeds only when every code unit of the argument is
Latin-1 (< 256), in which case it yields the base64 text of those bytes;
on any code unit ≥ 256 it throws `InvalidCharacterError`, modelled as
`none`. -/
def btoa (units : List Nat) : Option (List Nat) :=
  if units.all (fun c => c < 256) then some (btoaBytes units) else none

/-- State of the remote file: its content bytes and its version token
(the git blob `sha`). -/
structure RemoteFile where
  content : List Nat
  sha : Nat
deriving DecidableEq

/-- The remote path either holds a file or does not exist (404 on GET). -/
abbrev RemoteState := Option RemoteFile

/-- The version token currently visible at a remote state, if any. -/
def shaOf (st : RemoteState) : Option Nat :=
  st.map RemoteFile.sha

/-- Failure of the conditional remote write. -/
inductive PutError
  | conflict
deriving DecidableEq

/-- The git-hosting contents API `PUT`: creating a file needs no expected
version; updating an existing file is accepted only when the supplied
expected version matches the current one, otherwise the write is rejected
and the stored content is left as-is. -/
def githubPut (st : RemoteState) (content : List Nat) (expectedSha : Option Nat)
    (newSha : Nat) : Except PutError RemoteState :=
  match st, expectedSha with
  | none, none => .ok (some ⟨content, newSha⟩)
  | none, some _ => .error .conflict
  | some f, some sha =>
      if sha = f.sha then .ok (some ⟨content, newSha⟩) else .error .conflict
  | some _, none => .error .conflict

/-- Failure of `GitHubStorage.saveData` (a thrown `Error`). -/
inductive SaveError
  | encodingFailed
  | saveFailed (e : PutError)
deriving DecidableEq

/-- `GitHubStorage.saveData`: first `getFile()` (its observation is
`observed`), then `btoa(JSON.stringify(data, null, 2))`, then one `PUT`
carrying `observed`'s sha as the expected version when one exists.
`current` is the remote state at the moment the `PUT` lands: a concurrent
writer may have changed the file between the GET and the PUT.  Returns the
operation result and the resulting remote state; no retry is attempted. -/
def saveData (observed current : RemoteState) (data : List Appointment)
    (newSha : Nat) : Except SaveError Unit × RemoteState :=
  match btoa (stringifyAppointments data) with
  | none => (.error .encodingFailed, current)
  | some content =>
      match githubPut current content (shaOf observed) newSha with
      | .ok r => (.ok (), r)
      | .error e => (.error (.saveFailed e), current)

/-- Observable outcome of `GitHubStorage.getFile` + decode as seen by
`loadData`: a successfully fetched and parsed appointment list, a 404
(`null`), or any thrown error (network failure, non-404 HTTP status,
`atob`/`JSON.parse` failure). -/
inductive RemoteGetOutcome
  | found (appts : List Appointment)
  | notFound
  | failure
deriving DecidableEq

/-- `GitHubStorage.loadData`: returns the parsed remote content; on a 404 or
on ANY caught error it returns `defaultValue`.  It never throws. -/
def loadData (defaultValue : List Appointment) (outcome : RemoteGetOutcome) :
    List Appointment :=
  match outcome with
  | .found v => v
  | .notFound => defaultValue
  | .failure => defaultValue

/-- `LocalStorageService.load`: the stored value if present, else the
default. -/
def localLoad (store : Option (List Appointment))
    (defaultValue : List Appointment) : List Appointment :=
  match store with
  | some v => v
  | none => defaultValue

/-- The truthiness test `settings.use_github && settings.github_token &&
settings.github_repo` guarding every remote call. -/
def githubEnabled (s : AppSettings) : Bool :=
  s.use_github && !(s.github_token == "") && !(s.github_repo == "")

/-- `loadInitialData`: with GitHub enabled it returns
`gh.loadData<Appointment[]>([])` — whose default is the empty list — and
since `loadData` never throws, the surrounding catch (which would read
local storage) is unreachable on remote failure; with GitHub disabled it
reads local storage. -/
def loadInitialData (s : AppSettings) (localStore : Option (List Appointment))
    (outcome : RemoteGetOutcome) : List Appointment :=
  if githubEnabled s then loadData [] outcome
  else localLoad localStore []

/-- `persistData`: `LocalStorageService.save` of the new list first (the
local store now holds `newAppointments` whatever happens next), then, if
GitHub is enabled, one `saveData` attempt whose failure is caught and only
logged.  Returns the local store and remote state afterwards. -/
def persistData (s : AppSettings) (localStore : Option (List Appointment))
    (observed current : RemoteState) (newSha : Nat)
    (newAppointments : List Appointment) :
    Option (List Appointment) × RemoteState :=
  let localAfter : Option (List Appointment) := some newAppointments
  if githubEnabled s then
    match saveData observed current newAppointments newSha with
    | (.ok _, r) => (localAfter, r)
    | (.error _, r) => (localAfter, r)
  else (localAfter, current)

/-- The form state `newAppt` submitted to `handleAddAppointment`. -/
structure NewApptFields where
  client_name : String
  phone_number : String
  appointment_date : String
  appointment_time : String
deriving DecidableEq

/-- `handleAddAppointment` (and the `INSERT` of `POST /api/appointments`):
builds `{...newAppt, id: Date.now(), status: 'pending'}` — `now` is the
clock value — and appends it to the current list; no field validation is
performed in the handler. -/
def handleAddAppointment (s : List Appointment) (now : Nat) (f : NewApptFields) :
    List Appointment :=
  s ++ [⟨now, f.client_name, f.phone_number, f.appointment_date,
    f.appointment_time, Status.pending⟩]

/-- `handleDelete` / the SQL `DELETE FROM appointments WHERE id = ?`: keep
exactly the records whose id differs. -/
def handleDelete (s : List Appointment) (id : Nat) : List Appointment :=
  s.filter (fun a => a.id ≠ id)

/-- The route `DELETE /api/appointments/:id`: runs the delete and always
replies `res.json({ success: true })`, i.e. HTTP status 200, whether or not
a row matched. -/
def apiDeleteRoute (s : List Appointment) (id : Nat) : List Appointment × Nat :=
  (handleDelete s id, 200)

/-- `db.prepare("SELECT * ... WHERE id = ?").get(id)` /
`appointments.find(a => a.id === id)`. -/
def findAppt (s : List Appointment) (id : Nat) : Option Appointment :=
  s.find? (fun a => a.id == id)

/-- The status update on success: `appointments.map(a => a.id === id ?
{ ...a, status: 'sent' } : a)` in the client, `UPDATE appointments SET
status = 'sent' WHERE id = ?` in the server. -/
def markSentList (s : List Appointment) (id : Nat) : List Appointment :=
  s.map (fun a => if a.id = id then { a with status := Status.sent } else a)

/-- Observable outcome of the webhook `fetch`. -/
inductive WebhookOutcome
  | response (st : Nat)
  | timeout
  | transportError
deriving DecidableEq

/-- Classified result of `POST /api/trigger-reminder/:id` (its HTTP reply). -/
inductive TriggerResult
  | success
  | notFound
  | misconfigured
  | downstreamRejected (st : Nat)
  | timedOut
  | transportFailed
deriving DecidableEq

/-- The trigger route: look the appointment up (404 when absent), check the
webhook URL is configured (400 when not), then POST to the webhook; on a
2xx response (`response.ok`) mark the appointment sent, on any other status
reply 502 leaving the set unchanged, on timeout reply 504, on any other
transport error reply 500 — in the last three cases no state changes. -/
def triggerReminder (s : List Appointment) (webhookUrl : String)
    (outcome : WebhookOutcome) (id : Nat) : TriggerResult × List Appointment :=
  match findAppt s id with
  | none => (.notFound, s)
  | some _ =>
      if webhookUrl = "" then (.misconfigured, s)
      else
        match outcome with
        | .response st =>
            if 200 ≤ st ∧ st < 300 then (.success, markSentList s id)
            else (.downstreamRejected st, s)
        | .timeout => (.timedOut, s)
        | .transportError => (.transportFailed, s)

/-- Plain (memcmp-style) lexicographic comparison of code sequences, the
collation SQLite's default `BINARY` `ORDER BY` applies to `TEXT` columns
(UTF-8 byte order coincides with code-point order). -/
def codesLE : List Nat → List Nat → Bool
  | [], _ => true
  | _ :: _, [] => false
  | x :: xs, y :: ys =>
      if x < y then true
      else if y < x then false
      else codesLE xs ys

/-- The comparison implemented by `ORDER BY appointment_date ASC,
appointment_time ASC`: lexicographic on the pair of plain strings. -/
def apptKeyLE (a b : Appointment) : Bool :=
  if strCodes a.appointment_date = strCodes b.appointment_date then
    codesLE (strCodes a.appointment_time) (strCodes b.appointment_time)
  else codesLE (strCodes a.appointment_date) (strCodes b.appointment_date)

/-- `apptKeyLE` as a relation. -/
def apptLE (a b : Appointment) : Prop :=
  apptKeyLE a b = true

instance : DecidableRel apptLE := fun a b => decEq (apptKeyLE a b) true

/-- `GET /api/appointments`: the stored set sorted by
`(appointment_date, appointment_time)` ascending. -/
def apiListAppointments (s : List Appointment) : List Appointment :=
  List.insertionSort apptLE s

theorem codesLE_total : ∀ x y, codesLE x y = true ∨ codesLE y x = true
  | [], _ => Or.inl rfl
  | _ :: _, [] => Or.inr rfl
  | x :: xs, y :: ys => by
      simp only [codesLE]
      rcases Nat.lt_trichotomy x y with h | h | h
      · simp [h]
      · subst h
        simpa [Nat.lt_irrefl] using codesLE_total xs ys
      · simp [h, Nat.lt_asymm h]

theorem codesLE_antisymm : ∀ x y, codesLE x y = true → codesLE y x = true → x = y
  | [], [], _, _ => rfl
  | [], _ :: _, _, h => by simp [codesLE] at h
  | _ :: _, [], h, _ => by simp [codesLE] at h
  | x :: xs, y :: ys, h1, h2 => by
      simp only [codesLE] at h1 h2
      rcases Nat.lt_trichotomy x y with h | h | h
      · simp [h, Nat.lt_asymm h] at h2
      · subst h
        simp only [Nat.lt_irrefl, if_false] at h1 h2
        exact congrArg (x :: ·) (codesLE_antisymm xs ys h1 h2)
      · simp [h, Nat.lt_asymm h] at h1

theorem codesLE_trans :
    ∀ x y z, codesLE x y = true → codesLE y z = true → codesLE x z = true
  | [], _, _, _, _ => rfl
  | _ :: _, [], _, h, _ => by simp [codesLE] at h
  | _ :: _, _ :: _, [], _, h => by simp [codesLE] at h
  | x :: xs, y :: ys, z :: zs, h1, h2 => by
      simp only [codesLE] at h1 h2 ⊢
      rcases Nat.lt_trichotomy x y with hxy | hxy | hxy
      · rcases Nat.lt_trichotomy y z with hyz | hyz | hyz
        · simp [Nat.lt_trans hxy hyz]
        · subst hyz; simp [hxy]
        · simp [hyz, Nat.lt_asymm hyz] at h2
      · subst hxy
        rcases Nat.lt_trichotomy x z with hxz | hxz | hxz
        · simp [hxz]
        · subst hxz
          simp only [Nat.lt_irrefl, if_false] at h1 h2 ⊢
          exact codesLE_trans xs ys zs h1 h2
        · simp [hxz, Nat.lt_asymm hxz] at h2
      · simp [hxy, Nat.lt_asymm hxy] at h1

instance : IsTotal Appointment apptLE where
  total a b := by
    unfold apptLE apptKeyLE
    by_cases h : strCodes a.appointment_date = strCodes b.appointment_date
    · simp only [h, if_true, if_pos rfl]
      exact codesLE_total _ _
    · simp only [h, if_false, if_neg (Ne.symm h), if_neg h]
      exact codesLE_total _ _

instance : IsTrans Appointment apptLE where
  trans a b c hab hbc := by
    unfold apptLE apptKeyLE at *
    by_cases hab' : strCodes a.appointment_date = strCodes b.appointment_date <;>
      by_cases hbc' : strCodes b.appointment_date = strCodes c.appointment_date
    · simp only [hab', hbc', if_pos rfl] at hab hbc ⊢
      exact codesLE_trans _ _ _ hab hbc
    · have hac : strCodes a.appointment_date ≠ strCodes c.appointment_date :=
        fun h => hbc' (hab' ▸ h)
      simp only [hab', hbc', if_pos rfl, if_neg hbc', if_neg hac] at hab hbc ⊢
      exact hab' ▸ hbc
    · have hac : strCodes a.appointment_date ≠ strCodes c.appointment_date :=
        fun h => hab' (h.trans hbc'.symm)
      simp only [if_neg hab', hbc', if_neg hac] at hab hbc ⊢
      exact hbc' ▸ hab
    · by_cases hac : strCodes a.appointment_date = strCodes c.appointment_date
      · exfalso
        rw [if_neg hab'] at hab
        rw [if_neg hbc', ← hac] at hbc
        exact hab' (codesLE_antisymm _ _ hab hbc)
      · simp only [if_neg hab', if_neg hbc', if_neg hac] at hab hbc ⊢
        exact codesLE_trans _ _ _ hab hbc

/-- Fixture: the creation-scenario record from the spec. -/
def anaAppt : Appointment :=
  ⟨1, "Ana", "+1555", "2025-03-01", "09:00", Status.pending⟩

/-- Fixture: a pending record with id 5. -/
def bobAppt : Appointment :=
  ⟨5, "Bob", "+1777", "2025-05-01", "10:00", Status.pending⟩

/-- Fixture: a record whose client_name contains a non-Latin-1 character
(Ω, U+03A9 = code point 937). -/
def omegaAppt : Appointment :=
  ⟨2, "Ωmega", "+30155", "2025-04-01", "10:00", Status.pending⟩

/-- Fixture: record dated 2025-03-01 at 09:00. -/
def marchFirst : Appointment :=
  ⟨1, "A", "+1", "2025-03-01", "09:00", Status.pending⟩

/-- Fixture: record dated 2025-03-02 at 09:00. -/
def marchSecond : Appointment :=
  ⟨2, "B", "+2", "2025-03-02", "09:00", Status.pending⟩

/-- Fixture: settings with the GitHub backend enabled. -/
def ghSettings : AppSettings :=
  ⟨"", true, "tok", "owner/repo", "remindly-data.json", "main"⟩

/-- C1: the claim says encode-then-decode over the remote text transport
reproduces every record set exactly, including sets whose `client_name`
contains non-Latin-1 text.  The code's encode step is
`btoa(JSON.stringify(data, null, 2))`, and `btoa` throws
`InvalidCharacterError` on any code unit ≥ 256: on a set containing `Ω`
(code point 937) the encode produces no transport text at all, `saveData`
fails before issuing the write, and no round-trip exists — the code
violates the implementer obligation the spec states. -/
theorem saveData_unicode_encoding_fails :
    btoa (stringifyAppointments [omegaAppt]) = none ∧
    (saveData none none [omegaAppt] 7).1 = .error .encodingFailed ∧
    (saveData none none [omegaAppt] 7).2 = none :=
  ⟨by decide, rfl, rfl⟩

/-- C2: the claim says a failed remote get falls back to the local
last-known value.  In the code `GitHubStorage.loadData` catches every
error internally and returns the default `[]` that `loadInitialData`
passes it, so the local-fallback catch block in `loadInitialData` is
unreachable: with the remote enabled and failing, the read yields the
empty default even though the local store holds `[anaAppt]`. -/
theorem loadInitialData_remote_failure_returns_empty :
    loadInitialData ghSettings (some [anaAppt]) .failure = [] ∧
    localLoad (some [anaAppt]) [] = [anaAppt] ∧
    loadInitialData ghSettings (some [anaAppt]) .failure ≠
      localLoad (some [anaAppt]) [] :=
  ⟨rfl, rfl, by decide⟩

/-- C3: `persistData` saves the new list to the local store before the
remote attempt, and neither a remote put failure (conflict or encoding
error) nor remote success undoes it: whatever the settings, the prior
local value, and the remote outcome, a local load after the write yields
the written value. -/
theorem persistData_local_durable (s : AppSettings)
    (localStore : Option (List Appointment)) (observed current : RemoteState)
    (newSha : Nat) (v : List Appointment) :
    localLoad (persistData s localStore observed current newSha v).1 [] = v := by
  unfold persistData
  by_cases h : githubEnabled s = true
  · simp only [h, if_true]
    cases hsd : saveData observed current v newSha with
    | mk res rs => cases res <;> simp [hsd, localLoad]
  · simp [h, localLoad]

/-- C4 counterexample: id 7 is absent from `[bobAppt]` (whose only id is 5),
yet `DELETE /api/appointments/:id` replies success (HTTP 200,
`res.json({success: true})`) rather than failing with NotFound (404); only
the unchanged-set half of the claim holds for remove. -/
theorem apiDelete_absent_id_replies_success :
    apiDeleteRoute [bobAppt] 7 = ([bobAppt], 200) ∧ (200 : Nat) ≠ 404 :=
  ⟨by decide, by decide⟩

/-- C4 amended: for every id not present in the set, triggering (the only
caller of markSent) fails with NotFound and leaves the set unchanged, and
the delete route also leaves the set unchanged but reports success (200)
instead of failing with NotFound. -/
theorem absent_id_delete_and_trigger (s : List Appointment) (id : Nat)
    (url : String) (outcome : WebhookOutcome)
    (h : findAppt s id = none) :
    apiDeleteRoute s id = (s, 200) ∧
    triggerReminder s url outcome id = (.notFound, s) := by
  constructor
  · unfold apiDeleteRoute handleDelete
    have hall : ∀ a ∈ s, a.id ≠ id := by
      intro a ha hEq
      have h' : s.find? (fun a => a.id == id) = none := h
      have h2 := List.find?_eq_none.mp h' a ha
      simp [hEq] at h2
    simp only [Prod.mk.injEq, and_true]
    refine List.filter_eq_self.mpr ?_
    intro a ha
    simpa using hall a ha
  · unfold triggerReminder
    rw [h]

/-- C4 witness: the amended statement at the concrete absent id 7. -/
theorem absent_id_delete_and_trigger_witness :
    apiDeleteRoute [bobAppt] 7 = ([bobAppt], 200) ∧
    triggerReminder [bobAppt] "https://n8n.example/hook" .timeout 7 =
      (.notFound, [bobAppt]) :=
  absent_id_delete_and_trigger [bobAppt] 7 "https://n8n.example/hook" .timeout
    (by decide)

/-- Fixture: a form submission with empty client_name and phone_number. -/
def emptyFields : NewApptFields :=
  ⟨"", "", "2025-03-01", "09:00"⟩

/-- C5 counterexample: with the clock at 5 — a value already used as an id —
and empty `client_name`/`phone_number`, `handleAddAppointment` still
appends the record: creation succeeds with no validation failure and the
new id duplicates an existing one, so the created id is not fresh. -/
theorem handleAdd_accepts_empty_and_duplicates_id :
    handleAddAppointment [bobAppt] 5 emptyFields =
      [bobAppt, ⟨5, "", "", "2025-03-01", "09:00", Status.pending⟩] ∧
    (handleAddAppointment [bobAppt] 5 emptyFields).map Appointment.id = [5, 5] :=
  ⟨by decide, by decide⟩

/-- C5 amended: the handler itself performs no non-emptiness validation
(the form's `required` attributes sit outside it); on every input it
appends exactly one record carrying the clock value as id and status
pending, so the set size increases by exactly one, and the new id is
unique in the set exactly when the clock value is not already one of its
ids. -/
theorem handleAdd_appends_one_pending (s : List Appointment) (now : Nat)
    (f : NewApptFields) :
    (handleAddAppointment s now f).length = s.length + 1 ∧
    (handleAddAppointment s now f).getLast? =
      some ⟨now, f.client_name, f.phone_number, f.appointment_date,
        f.appointment_time, Status.pending⟩ ∧
    (((handleAddAppointment s now f).map Appointment.id).count now = 1 ↔
      now ∉ s.map Appointment.id) := by
  refine ⟨by simp [handleAddAppointment], ?_, ?_, ?_⟩
  · unfold handleAddAppointment
    simp
  · intro h1 hmem
    rw [handleAddAppointment, List.map_append, List.count_append] at h1
    have hpos : 0 < (s.map Appointment.id).count now :=
      List.count_pos_iff.mpr hmem
    have hone : (([⟨now, f.client_name, f.phone_number, f.appointment_date,
        f.appointment_time, Status.pending⟩] : List Appointment).map
          Appointment.id).count now = 1 := by simp
    omega
  · intro hfresh
    unfold handleAddAppointment
    simp [List.count_append, List.count_eq_zero.mpr hfresh]

/-- C6: `saveData` passes the sha observed by its own (most recent) get of
the path as the expected version of the PUT; when the remote file has
meanwhile changed — its current version token differs from the observed
one — the conditional write is rejected: the operation fails with a
Conflict error, the rejected content is not applied (the remote keeps
whatever the concurrent writer last stored), and the single attempt is not
retried. -/
theorem saveData_stale_version_conflict (observed current : RemoteState)
    (data : List Appointment) (newSha : Nat)
    (henc : (btoa (stringifyAppointments data)).isSome = true)
    (hstale : shaOf current ≠ shaOf observed) :
    (saveData observed current data newSha).1 =
      .error (.saveFailed .conflict) ∧
    (saveData observed current data newSha).2 = current := by
  unfold saveData
  obtain ⟨content, hcont⟩ := Option.isSome_iff_exists.mp henc
  rw [hcont]
  cases current with
  | none =>
      cases observed with
      | none => exact absurd rfl hstale
      | some g => exact ⟨rfl, rfl⟩
  | some f =>
      cases observed with
      | none => exact ⟨rfl, rfl⟩
      | some g =>
          have hne : g.sha ≠ f.sha := by
            intro hEq
            exact hstale (by simp [shaOf, hEq])
          simp [githubPut, shaOf, hne]

/-- C6 witness: a concrete stale write — version 1 was observed, a
concurrent writer moved the file to version 2 — fails with Conflict and
leaves the remote at version 2. -/
theorem saveData_stale_version_conflict_witness :
    (saveData (some ⟨[], 1⟩) (some ⟨[], 2⟩) [] 3).1 =
      .error (.saveFailed .conflict) ∧
    (saveData (some ⟨[], 1⟩) (some ⟨[], 2⟩) [] 3).2 = some ⟨[], 2⟩ :=
  saveData_stale_version_conflict (some ⟨[], 1⟩) (some ⟨[], 2⟩) [] 3
    (by decide) (by decide)

/-- C7: for an appointment present in the set and a configured webhook URL,
a non-2xx webhook response makes the trigger fail with DownstreamRejected
carrying the status code, and the record set — in particular the target's
pending status — is unchanged. -/
theorem trigger_non2xx_rejected (s : List Appointment) (url : String)
    (id st : Nat) (hfind : (findAppt s id).isSome = true) (hurl : url ≠ "")
    (hst : ¬(200 ≤ st ∧ st < 300)) :
    triggerReminder s url (.response st) id = (.downstreamRejected st, s) := by
  unfold triggerReminder
  obtain ⟨a, ha⟩ := Option.isSome_iff_exists.mp hfind
  rw [ha]
  simp [hurl, hst]

/-- C7 witness: webhook status 500 on the pending record with id 5. -/
theorem trigger_non2xx_rejected_witness :
    triggerReminder [bobAppt] "https://n8n.example/hook" (.response 500) 5 =
      (.downstreamRejected 500, [bobAppt]) :=
  trigger_non2xx_rejected [bobAppt] "https://n8n.example/hook" 5 500
    (by decide) (by decide) (by decide)

/-- C8: `GET /api/appointments` returns a permutation of the stored set
that is sorted ascending by the (appointment_date, appointment_time) pair
under plain string comparison; in particular the two records dated
2025-03-02 and 2025-03-01 at the equal time 09:00 come back with
2025-03-01 first. -/
theorem apiListAppointments_sorted (s : List Appointment) :
    (apiListAppointments s).Perm s ∧
    (apiListAppointments s).Sorted apptLE ∧
    apiListAppointments [marchSecond, marchFirst] = [marchFirst, marchSecond] :=
  ⟨List.perm_insertionSort apptLE s, List.sorted_insertionSort apptLE s,
    by decide⟩

/-- C9: marking an appointment sent twice yields the same record set as
marking it once — the second update maps every record to itself because
the target's status is already `sent` and its id is unchanged. -/
theorem markSent_idempotent (s : List Appointment) (id : Nat)
    (hmem : (findAppt s id).isSome = true) :
    markSentList (markSentList s id) id = markSentList s id := by
  unfold markSentList
  rw [List.map_map]
  refine List.map_congr_left ?_
  intro a _
  by_cases h : a.id = id <;> simp [Function.comp, h]

/-- C9 witness: double mark-sent on the present id 5. -/
theorem markSent_idempotent_witness :
    markSentList (markSentList [bobAppt] 5) 5 = markSentList [bobAppt] 5 :=
  markSent_idempotent [bobAppt] 5 (by decide)

/-- C10: on a successful dispatch (2xx webhook response, target present,
URL configured) the resulting set is the mark-sent update of the old one,
and record-for-record the id, client_name, phone_number, appointment_date
and appointment_time are unchanged while the status of a record becomes
`sent` exactly when it is the target's and keeps its old value otherwise. -/
theorem trigger_success_frame (s : List Appointment) (url : String)
    (id st : Nat) (hfind : (findAppt s id).isSome = true) (hurl : url ≠ "")
    (hlo : 200 ≤ st) (hhi : st < 300) :
    (triggerReminder s url (.response st) id).1 = .success ∧
    (triggerReminder s url (.response st) id).2 = markSentList s id ∧
    List.Forall₂ (fun b a =>
      b.id = a.id ∧ b.client_name = a.client_name ∧
      b.phone_number = a.phone_number ∧
      b.appointment_date = a.appointment_date ∧
      b.appointment_time = a.appointment_time ∧
      b.status = if a.id = id then Status.sent else a.status)
      (markSentList s id) s := by
  refine ⟨?_, ?_, ?_⟩
  · unfold triggerReminder
    obtain ⟨a, ha⟩ := Option.isSome_iff_exists.mp hfind
    rw [ha]
    simp [hurl, hlo, hhi]
  · unfold triggerReminder
    obtain ⟨a, ha⟩ := Option.isSome_iff_exists.mp hfind
    rw [ha]
    simp [hurl, hlo, hhi]
  · clear hfind hurl hlo hhi
    induction s with
    | nil => exact List.Forall₂.nil
    | cons a t ih =>
        simp only [markSentList, List.map_cons] at ih ⊢
        refine List.Forall₂.cons ?_ ih
        by_cases h : a.id = id <;> simp [h]

/-- C10 witness: a 204 response on the pending record with id 5. -/
theorem trigger_success_frame_witness :
    (triggerReminder [bobAppt] "https://n8n.example/hook" (.response 204) 5).1 =
      .success ∧
    (triggerReminder [bobAppt] "https://n8n.example/hook" (.response 204) 5).2 =
      markSentList [bobAppt] 5 ∧
    List.Forall₂ (fun b a =>
      b.id = a.id ∧ b.client_name = a.client_name ∧
      b.phone_number = a.phone_number ∧
      b.appointment_date = a.appointment_date ∧
      b.appointment_time = a.appointment_time ∧
      b.status = if a.id = 5 then Status.sent else a.status)
      (markSentList [bobAppt] 5) [bobAppt] :=
  trigger_success_frame [bobAppt] "https://n8n.example/hook" 5 204
    (by decide) (by decide) (by decide) (by decide)
